import Mathlib

/-!
SKI780 VFD spindle backend (FluidNC, `Spindles/SKI780Spindle.cpp`).

A shallow embedding of the Modbus command builders and response parsers of the
SKI780 backend, followed by the properties established about them.

Conventions of the embedding:

* `uint8_t` values are `Byte = Fin 256`; a conversion to `uint8_t` is `toByte`.
* `uint16_t` / `uint32_t` values are natural numbers, reduced `% 65536` /
  `% 4294967296` wherever the source converts to or computes in that type.
* `int` arithmetic on promoted `uint16_t` operands (`f * 600`, `f / 40`) is done
  on natural numbers: with operands below `65536` no product reaches `2 ^ 31`.
* A function that mutates `ModbusCommand& data` returns the new frame; a response
  parser returns its boolean result together with the new backend state.
* A response parser is written as the sequence of its reads of `response[i]`
  (`Reads`); the parser is that sequence run on the response, and the same
  sequence gives the indices read and the outcome on a buffer of finite length.
* A division whose divisor is zero is undefined in C++; the one builder that
  divides by a field returns `none` in that case.
-/

namespace Spindles

/-! ## Data model -/

/-- An octet, the element type of `ModbusCommand::msg` and of a response. -/
abbrev Byte := Fin 256

/-- Conversion of an integer value to `uint8_t`. -/
def toByte (n : Nat) : Byte := ⟨n % 256, Nat.mod_lt n (by decide)⟩

/-- Modelled from the spec: the `SpindleState` enumeration is declared outside
`SKI780Spindle.*`. The source names `Cw` and `Ccw`; the spec (§3, §4.1) adds the
stopped state and speaks of unrecognised values, which `Unknown` stands for. -/
inductive SpindleState where
  | Disable
  | Cw
  | Ccw
  | Unknown
  deriving DecidableEq, Repr

/-- Modelled from the spec: the frame type `ModbusCommand` is declared outside
`SKI780Spindle.*`. Spec §3: a fixed-capacity byte buffer plus transmit length and
expected receive length. The buffer is a total map from index to octet. -/
structure ModbusCommand where
  tx_length : Nat
  rx_length : Nat
  msg : Nat → Byte

/-- The assignment `data.msg[i] = v`. -/
def ModbusCommand.setMsg (data : ModbusCommand) (i : Nat) (v : Byte) : ModbusCommand :=
  { data with msg := fun j => if j = i then v else data.msg j }

/-- The 16-bit big-endian value held in `msg[4]`, `msg[5]`. -/
def ModbusCommand.value (data : ModbusCommand) : Nat :=
  (data.msg 4).val * 256 + (data.msg 5).val

/-- Modelled from the spec: the speed table `_speeds` of the base class, with its
operations `shelfSpeeds` and `setupSpeeds`, is declared outside `SKI780Spindle.*`.
Spec §3 and §8: the table is built from an RPM range (min RPM, max RPM) and a
maximum device speed. `shelf = none` is the empty table (`_speeds.size() == 0`). -/
structure SpeedTable where
  shelf : Option (Nat × Nat)
  max_dev_speed : Option Nat
  deriving DecidableEq, Repr

/-- The table before anything was configured or discovered. -/
def SpeedTable.empty : SpeedTable := ⟨none, none⟩

/-- Number of entries of the table, as far as the source looks at it: zero or not. -/
def SpeedTable.size (t : SpeedTable) : Nat :=
  match t.shelf with
  | none => 0
  | some _ => 2

/-- Backend state: the two fields of `class SKI780` and the fields of the base
class `VFD` that the parsers write (`_sync_dev_speed`, `_slop`, `_speeds`). -/
structure SKI780 where
  _minFrequency : Nat
  _maxFrequency : Nat
  _sync_dev_speed : Nat
  _slop : Nat
  _speeds : SpeedTable
  deriving DecidableEq, Repr

/-- A freshly constructed backend: the member initialisers of `SKI780Spindle.h`
(`_minFrequency = 0`, `_maxFrequency = 40000`) over an empty speed table. -/
def SKI780.fresh : SKI780 :=
  { _minFrequency := 0, _maxFrequency := 40000, _sync_dev_speed := 0, _slop := 0,
    _speeds := SpeedTable.empty }

/-- Modelled from the spec: `shelfSpeeds(min, max)` of the base class, which is
not in `SKI780Spindle.*`; it fixes the RPM range of the table (spec §8: "a Speed
Table whose max RPM equals ... and whose min RPM equals ..."). -/
def SKI780.shelfSpeeds (vfd : SKI780) (minRPM maxRPM : Nat) : SKI780 :=
  { vfd with _speeds := { vfd._speeds with shelf := some (minRPM, maxRPM) } }

/-- Modelled from the spec: `setupSpeeds(max_dev_speed)` of the base class, which
is not in `SKI780Spindle.*`; it fixes the device value of the top of the table. -/
def SKI780.setupSpeeds (vfd : SKI780) (max_dev_speed : Nat) : SKI780 :=
  { vfd with _speeds := { vfd._speeds with max_dev_speed := some max_dev_speed } }

/-- A received frame: `const uint8_t* response`, indexed from zero. -/
abbrev Response := Nat → Byte

/-- The type `VFD::response_parser` of the source: the parser's result and the state it leaves. -/
abbrev ResponseParser := Response → SKI780 → Bool × SKI780

/-- The expression `(uintN_t(response[4]) << 8) | uintN_t(response[5])`. -/
def word45 (response : Response) : Nat :=
  ((response 4).val <<< 8) ||| (response 5).val

/-! ## Command builders -/

/-- `SKI780::direction_command`. -/
def direction_command (mode : SpindleState) (data : ModbusCommand) : ModbusCommand :=
  let data := { data with tx_length := 6 }
  let data := { data with rx_length := 6 }
  let data := data.setMsg 1 0x06
  let data := data.setMsg 2 0x20
  let data := data.setMsg 3 0x00
  let data := data.setMsg 4 0x00
  data.setMsg 5 (if mode = SpindleState.Ccw then 0x02 else (if mode = SpindleState.Cw then 0x01 else 0x06))

/-- The local `uint16_t speed` of `SKI780::set_speed_command` after both clamps,
for a non-zero divisor `maxFrequency`. The casts `(uint32_t)dev_speed` and
`(uint32_t)_maxFrequency` widen or keep the value; each `uint32_t` product is
reduced `% 4294967296`, the conversion to `uint16_t` is `% 65536`. -/
def speed_value (maxFrequency dev_speed : Nat) : Nat :=
  let speed_acc := (dev_speed * 10000) % 4294967296
  let speed_acc := speed_acc / maxFrequency
  let speed_acc := (speed_acc * 10000) % 4294967296
  let speed := (speed_acc / 6000) % 65536
  let speed := if speed < 0 then 0 else speed
  let speed := if speed > 10000 then 10000 else speed
  speed

/-- `SKI780::set_speed_command`; `none` when `_maxFrequency` is zero, where the
source divides by zero. -/
def set_speed_command (self : SKI780) (dev_speed : Nat) (data : ModbusCommand) :
    Option ModbusCommand :=
  let data := { data with tx_length := 6 }
  let data := { data with rx_length := 6 }
  if self._maxFrequency = 0 then none
  else
    let speed := speed_value self._maxFrequency dev_speed
    let data := data.setMsg 1 0x06
    let data := data.setMsg 2 0x10
    let data := data.setMsg 3 0x00
    let data := data.setMsg 4 (toByte (speed >>> 8))
    let data := data.setMsg 5 (toByte (speed &&& 0xFF))
    some data

/-! ## Response parsers

A parser is written as the sequence of its reads of `response[i]`, in the order
of the source, and is the function obtained by running that sequence. -/

/-- A computation over a response that reads one octet at a time: a result, or a
read of `response[i]` followed by what is done with the octet read. Every
evaluation of `response[i]` in a parser of the source is one `read` node. -/
inductive Reads (α : Type) where
  | done (a : α) : Reads α
  | read (i : Nat) (k : Byte → Reads α) : Reads α

/-- The result of the computation on a response whose every index can be read. -/
def Reads.run {α : Type} : Reads α → Response → α
  | .done a, _ => a
  | .read i k, response => (k (response i)).run response

/-- The indices the computation reads on a response, in the order of the reads. -/
def Reads.trace {α : Type} : Reads α → Response → List Nat
  | .done _, _ => []
  | .read i k, response => i :: (k (response i)).trace response

/-- The computation on a receive buffer of `buf.length` octets: a read at an
index past the end of the buffer is out of bounds and gives `none`. -/
def Reads.runOn {α : Type} : Reads α → List Byte → Option α
  | .done a, _ => some a
  | .read i k, buf =>
    match buf[i]? with
    | some b => (k b).runOn buf
    | none => none

/-- The reads of the parser of initialization step `-1` (line 81 of the source). -/
def reads_init_min (vfd : SKI780) : Reads (Bool × SKI780) :=
  .read 4 fun r4 => .read 5 fun r5 =>
    .done (true, { vfd with _minFrequency := ((r4.val <<< 8) ||| r5.val) % 65536 })

/-- The reads of the parser of initialization step `-2` (line 102). -/
def reads_init_max (vfd : SKI780) : Reads (Bool × SKI780) :=
  .read 4 fun r4 => .read 5 fun r5 =>
    let vfd := { vfd with _maxFrequency := ((r4.val <<< 8) ||| r5.val) % 65536 }
    let vfd :=
      if vfd._speeds.size = 0 then
        let maxRPM := (vfd._maxFrequency * 600) / 1000
        let minRPM := (vfd._minFrequency * 600) / 1000
        vfd.shelfSpeeds minRPM maxRPM
      else vfd
    let vfd := vfd.setupSpeeds ((vfd._maxFrequency * 600) / 1000)
    let vfd := { vfd with _slop := max (vfd._maxFrequency / 40) 1 }
    .done (true, vfd)

/-- The reads of the parser of `get_current_speed`: octets 4 and 5 (line 146)
before octet 1 (line 147), then octet 2 and, `||` evaluating its right operand
only when the left one is false, octet 3 (line 155). -/
def reads_current_speed (vfd : SKI780) : Reads (Bool × SKI780) :=
  .read 4 fun r4 => .read 5 fun r5 =>
    let Hz := ((r4.val <<< 8) ||| r5.val) % 4294967296
    .read 1 fun r1 =>
      if r1 ≠ 0x03 then .done (false, vfd)
      else .read 2 fun r2 =>
        if r2 ≠ 0 then .done (false, vfd)
        else .read 3 fun r3 =>
          if r3 ≠ 2 then .done (false, vfd)
          else
            let Hz := (Hz * 600) % 4294967296
            let Hz := Hz / 1000
            .done (true, { vfd with _sync_dev_speed := Hz })

/-- The reads of the parser of `get_current_direction`: octet 1 (line 193),
octets 2 and 3 (line 198), then octets 4 and 5 (line 202). -/
def reads_current_direction (vfd : SKI780) : Reads (Bool × SKI780) :=
  .read 1 fun r1 =>
    if r1 ≠ 0x03 then .done (false, vfd)
    else .read 2 fun r2 =>
      if r2 ≠ 0 then .done (false, vfd)
      else .read 3 fun r3 =>
        if r3 ≠ 2 then .done (false, vfd)
        else .read 4 fun r4 => .read 5 fun r5 =>
          let _status := ((r4.val <<< 8) ||| r5.val) % 65536
          .done (true, vfd)

/-- The reads of the parser of `get_status_ok`: octet 1 (line 241), octets 2
and 3 (line 246), then octets 4 and 5 (line 250). -/
def reads_status_ok (vfd : SKI780) : Reads (Bool × SKI780) :=
  .read 1 fun r1 =>
    if r1 ≠ 0x03 then .done (false, vfd)
    else .read 2 fun r2 =>
      if r2 ≠ 0 then .done (false, vfd)
      else .read 3 fun r3 =>
        if r3 ≠ 2 then .done (false, vfd)
        else .read 4 fun r4 => .read 5 fun r5 =>
          let currentFaultNumber := ((r4.val <<< 8) ||| r5.val) % 65536
          if currentFaultNumber ≠ 0 then .done (false, vfd)
          else .done (true, vfd)

/-- The parser returned by `initialization_sequence` for index `-1`. -/
def parse_init_min : ResponseParser := fun response vfd =>
  (reads_init_min vfd).run response

/-- The parser returned by `initialization_sequence` for index `-2`. -/
def parse_init_max : ResponseParser := fun response vfd =>
  (reads_init_max vfd).run response

/-- The parser returned by `get_current_speed`. -/
def parse_current_speed : ResponseParser := fun response vfd =>
  (reads_current_speed vfd).run response

/-- The parser returned by `get_current_direction`: after validation it decodes
the status word and only logs it. -/
def parse_current_direction : ResponseParser := fun response vfd =>
  (reads_current_direction vfd).run response

/-- The parser returned by `get_status_ok`; `currentFaultNumber` is read only
after both validation steps. -/
def parse_status_ok : ResponseParser := fun response vfd =>
  (reads_status_ok vfd).run response

/-! ## Builders that return a parser -/

/-- The five octets `msg[1..5]` of a read request, with both lengths set to 6. -/
def readFrame (data : ModbusCommand) (b1 b2 b3 b4 b5 : Byte) : ModbusCommand :=
  let data := { data with tx_length := 6 }
  let data := { data with rx_length := 6 }
  let data := data.setMsg 1 b1
  let data := data.setMsg 2 b2
  let data := data.setMsg 3 b3
  let data := data.setMsg 4 b4
  data.setMsg 5 b5

/-- `SKI780::initialization_sequence`: `nullptr` is `none`. -/
def initialization_sequence (index : Int) (data : ModbusCommand) :
    Option ResponseParser × ModbusCommand :=
  if index = -1 then
    (some parse_init_min, readFrame data 0x03 0xF0 0x0e 0x00 0x01)
  else if index = -2 then
    (some parse_init_max, readFrame data 0x03 0xF0 0x0a 0x00 0x01)
  else
    (none, data)

/-- `SKI780::get_current_speed`. -/
def get_current_speed (data : ModbusCommand) : ResponseParser × ModbusCommand :=
  (parse_current_speed, readFrame data 0x03 0x10 0x01 0x00 0x01)

/-- `SKI780::get_current_direction`. -/
def get_current_direction (data : ModbusCommand) : ResponseParser × ModbusCommand :=
  (parse_current_direction, readFrame data 0x03 0x30 0x00 0x00 0x01)

/-- `SKI780::get_status_ok`. -/
def get_status_ok (data : ModbusCommand) : ResponseParser × ModbusCommand :=
  (parse_status_ok, readFrame data 0x03 0x80 0x00 0x00 0x01)

/-- The parsers the backend hands out, by the builder that returns them. -/
inductive ParserId where
  | initMin
  | initMax
  | currentSpeed
  | currentDirection
  | statusOk
  deriving DecidableEq, Repr

/-- The parser a builder returns, obtained by running the builder on `data`. -/
def ParserId.parser (p : ParserId) (data : ModbusCommand) : Option ResponseParser :=
  match p with
  | .initMin => (initialization_sequence (-1) data).1
  | .initMax => (initialization_sequence (-2) data).1
  | .currentSpeed => some (get_current_speed data).1
  | .currentDirection => some (get_current_direction data).1
  | .statusOk => some (get_status_ok data).1

/-- A response of six octets and zeros behind them. -/
def mkResponse (b0 b1 b2 b3 b4 b5 : Byte) : Response := fun i =>
  match i with
  | 0 => b0
  | 1 => b1
  | 2 => b2
  | 3 => b3
  | 4 => b4
  | 5 => b5
  | _ => 0

/-- A well-formed read response (function code 3, declared length 2) carrying the
16-bit value `v` big-endian in octets 4 and 5. -/
def wellFormed (v : Nat) : Response :=
  mkResponse 1 0x03 0x00 0x02 (toByte (v / 256)) (toByte v)

/-- A response held in a receive buffer `buf`: an index inside the buffer reads
its octet, an index past its end reads whatever `beyond` says lies there. -/
def fromBuffer (buf : List Byte) (beyond : Nat → Byte) : Response :=
  fun i => buf.getD i (beyond i)

/-- A frame whose buffer is all zero. -/
def blankFrame : ModbusCommand := ⟨0, 0, fun _ => 0⟩

/-- The write value of `direction_command` for each direction. -/
def directionValue : SpindleState → Byte
  | .Ccw => 0x02
  | .Cw => 0x01
  | .Disable => 0x06
  | .Unknown => 0x06

/-- The octets `msg[1..5]` of a frame, in order. -/
def ModbusCommand.payload (data : ModbusCommand) : List Byte :=
  [data.msg 1, data.msg 2, data.msg 3, data.msg 4, data.msg 5]

/-- The device limits and what is derived from them: `_minFrequency`,
`_maxFrequency`, the speed table and the slop. -/
def SKI780.limits (vfd : SKI780) : Nat × Nat × SpeedTable × Nat :=
  (vfd._minFrequency, vfd._maxFrequency, vfd._speeds, vfd._slop)

/-- The builders of the backend, each with its arguments other than the frame. -/
inductive Builder where
  | direction (mode : SpindleState)
  | setSpeed (dev_speed : Nat)
  | currentSpeed
  | currentDirection
  | statusOk
  | init (index : Int)

/-- A call of a builder as a member function of the backend `self`: the state of
the backend after the call, the frame left in `data`, and the parser returned
(`none` for the two `void` builders and for `nullptr`). No builder body assigns to
a member, so the state is handed back as it came. The result is `none` where the
call is undefined (`set_speed_command` with `_maxFrequency = 0`). -/
def Builder.call (b : Builder) (self : SKI780) (data : ModbusCommand) :
    Option (SKI780 × ModbusCommand × Option ResponseParser) :=
  match b with
  | .direction mode => some (self, direction_command mode data, none)
  | .setSpeed dev_speed =>
    match set_speed_command self dev_speed data with
    | some data' => some (self, data', none)
    | none => none
  | .currentSpeed => some (self, (get_current_speed data).2, some (get_current_speed data).1)
  | .currentDirection =>
    some (self, (get_current_direction data).2, some (get_current_direction data).1)
  | .statusOk => some (self, (get_status_ok data).2, some (get_status_ok data).1)
  | .init index =>
    some (self, (initialization_sequence index data).2, (initialization_sequence index data).1)

/-- Whether the builder belongs to initialization. -/
def Builder.isInit : Builder → Bool
  | .init _ => true
  | _ => false

/-- The builder that returns a given parser. -/
def ParserId.builder : ParserId → Builder
  | .initMin => .init (-1)
  | .initMax => .init (-2)
  | .currentSpeed => .currentSpeed
  | .currentDirection => .currentDirection
  | .statusOk => .statusOk

/-- The reads of each parser the backend hands out. -/
def ParserId.reads : ParserId → SKI780 → Reads (Bool × SKI780)
  | .initMin => reads_init_min
  | .initMax => reads_init_max
  | .currentSpeed => reads_current_speed
  | .currentDirection => reads_current_direction
  | .statusOk => reads_status_ok

/-- Modelled from the spec: the driver loop of initialization belongs to the base
class, outside `SKI780Spindle.*`. Spec §4.3: it "keeps decrementing and requesting
the next step until the builder/parser factory yields no step". The function
counts the steps obtained from `index` downwards, asking at most `fuel` times. -/
def initStepCount : Nat → Int → ModbusCommand → Nat
  | 0, _, _ => 0
  | fuel + 1, index, data =>
    match initialization_sequence index data with
    | (some _, data') => 1 + initStepCount fuel (index - 1) data'
    | (none, _) => 0

/-- The backend states that arise from a freshly constructed backend by applying
parsers the backend returned, to any responses, in any order. -/
inductive Reachable : SKI780 → Prop where
  | fresh : Reachable SKI780.fresh
  | parse (vfd : SKI780) (p : ParserId) (data : ModbusCommand) (parser : ResponseParser)
      (response : Response) :
      Reachable vfd → p.parser data = some parser → Reachable (parser response vfd).2

/-! ## The parsers as functions of the response -/

theorem parse_init_min_eq (response : Response) (vfd : SKI780) :
    parse_init_min response vfd =
      (true, { vfd with _minFrequency := word45 response % 65536 }) := rfl

theorem parse_init_max_eq (response : Response) (vfd : SKI780) :
    parse_init_max response vfd =
      (true,
        { (if vfd._speeds.size = 0 then
            ({ vfd with _maxFrequency := word45 response % 65536 } : SKI780).shelfSpeeds
              (vfd._minFrequency * 600 / 1000) (word45 response % 65536 * 600 / 1000)
          else { vfd with _maxFrequency := word45 response % 65536 }).setupSpeeds
            (word45 response % 65536 * 600 / 1000) with
          _slop := max (word45 response % 65536 / 40) 1 }) := by
  simp only [parse_init_max, reads_init_max, Reads.run, word45, SKI780.shelfSpeeds,
    SKI780.setupSpeeds]
  split_ifs <;> rfl

theorem parse_current_speed_eq (response : Response) (vfd : SKI780) :
    parse_current_speed response vfd =
      if response 1 ≠ 0x03 then (false, vfd)
      else if response 2 ≠ 0 ∨ response 3 ≠ 2 then (false, vfd)
      else (true, { vfd with
        _sync_dev_speed := (word45 response % 4294967296 * 600) % 4294967296 / 1000 }) := by
  by_cases h1 : response 1 = 3 <;> by_cases h2 : response 2 = 0 <;>
    by_cases h3 : response 3 = 2 <;>
    simp [parse_current_speed, reads_current_speed, Reads.run, word45, h1, h2, h3]

theorem parse_current_direction_eq (response : Response) (vfd : SKI780) :
    parse_current_direction response vfd =
      if response 1 ≠ 0x03 then (false, vfd)
      else if response 2 ≠ 0 ∨ response 3 ≠ 2 then (false, vfd)
      else (true, vfd) := by
  by_cases h1 : response 1 = 3 <;> by_cases h2 : response 2 = 0 <;>
    by_cases h3 : response 3 = 2 <;>
    simp [parse_current_direction, reads_current_direction, Reads.run, h1, h2, h3]

theorem parse_status_ok_eq (response : Response) (vfd : SKI780) :
    parse_status_ok response vfd =
      if response 1 ≠ 0x03 then (false, vfd)
      else if response 2 ≠ 0 ∨ response 3 ≠ 2 then (false, vfd)
      else if word45 response % 65536 ≠ 0 then (false, vfd)
      else (true, vfd) := by
  by_cases h1 : response 1 = 3 <;> by_cases h2 : response 2 = 0 <;>
    by_cases h3 : response 3 = 2 <;>
    by_cases h4 : ((response 4).val <<< 8 ||| (response 5).val) % 65536 = 0 <;>
    simp [parse_status_ok, reads_status_ok, Reads.run, word45, h1, h2, h3, h4]

/-! ## Arithmetic of the frame encoding -/

theorem toByte_val (n : Nat) : (toByte n).val = n % 256 := rfl

theorem word45_eq (response : Response) :
    word45 response = (response 4).val * 256 + (response 5).val := by
  unfold word45
  have h5 : (response 5).val < 2 ^ 8 := (response 5).isLt
  rw [Nat.shiftLeft_eq, Nat.mul_comm, ← Nat.mul_add_lt_is_or h5]

theorem word45_lt (response : Response) : word45 response < 65536 := by
  rw [word45_eq]
  have h4 := (response 4).isLt
  have h5 := (response 5).isLt
  omega

theorem word45_wellFormed (v : Nat) (hv : v < 65536) : word45 (wellFormed v) = v := by
  rw [word45_eq]
  simp only [wellFormed, mkResponse, toByte_val]
  omega

theorem hi_lo_split (s : Nat) (hs : s < 65536) :
    (toByte (s >>> 8)).val * 256 + (toByte (s &&& 0xFF)).val = s := by
  have hand : s &&& 0xFF = s % 2 ^ 8 := Nat.and_pow_two_sub_one_eq_mod s 8
  rw [toByte_val, toByte_val, Nat.shiftRight_eq_div_pow, hand]
  omega

theorem speed_value_le (maxFrequency dev_speed : Nat) :
    speed_value maxFrequency dev_speed ≤ 10000 := by
  simp only [speed_value]
  split_ifs <;> omega

theorem set_speed_command_eq (self : SKI780) (dev_speed : Nat) (data : ModbusCommand)
    (hmax : self._maxFrequency ≠ 0) :
    ∃ data', set_speed_command self dev_speed data = some data' ∧
      data'.tx_length = 6 ∧ data'.rx_length = 6 ∧
      data'.msg 1 = 0x06 ∧ data'.msg 2 = 0x10 ∧ data'.msg 3 = 0x00 ∧
      data'.value = speed_value self._maxFrequency dev_speed := by
  have hle := speed_value_le self._maxFrequency dev_speed
  simp only [set_speed_command, if_neg hmax]
  refine ⟨_, rfl, rfl, rfl, rfl, rfl, rfl, ?_⟩
  simpa [ModbusCommand.value, ModbusCommand.setMsg] using
    hi_lo_split (speed_value self._maxFrequency dev_speed) (by omega)

/-! ## The speed command: range of the encoded value -/

/-- C1: for every requested speed and every non-zero `_maxFrequency`,
`set_speed_command` yields a frame, and the 16-bit command value it writes into
`msg[4]`, `msg[5]` lies in `[0, 10000]`, whether or not a `uint32_t` product wrapped. -/
theorem set_speed_command_clamped (self : SKI780) (dev_speed : Nat) (data : ModbusCommand)
    (hmax : self._maxFrequency ≠ 0) :
    ∃ data', set_speed_command self dev_speed data = some data' ∧
      0 ≤ data'.value ∧ data'.value ≤ 10000 := by
  obtain ⟨data', hsome, -, -, -, -, -, hval⟩ := set_speed_command_eq self dev_speed data hmax
  exact ⟨data', hsome, Nat.zero_le _, hval ▸ speed_value_le _ _⟩

/-- Instance of C1 at the largest 32-bit speed, where the first product wraps. -/
theorem set_speed_command_clamped_witness :
    SKI780.fresh._maxFrequency ≠ 0 ∧
      ∃ data', set_speed_command SKI780.fresh 4294967295 blankFrame = some data' ∧
        0 ≤ data'.value ∧ data'.value ≤ 10000 :=
  ⟨by decide, set_speed_command_clamped SKI780.fresh 4294967295 blankFrame (by decide)⟩

/-- C2: evaluation at over-range speeds with `_maxFrequency = 40000` (maximum
24000 RPM). At 157288 RPM no `uint32_t` product wraps, the quotient before the
conversion to `uint16_t` is 65536, and the encoded command is 0 instead of the
ceiling 10000; at 429497 RPM the first product wraps and the command is 0 too. -/
theorem set_speed_command_overrange_not_ceiling :
    157288 * 10 ≥ SKI780.fresh._maxFrequency * 6 ∧
    157288 * 10000 < 4294967296 ∧
    157288 * 10000 / 40000 * 10000 < 4294967296 ∧
    157288 * 10000 / 40000 * 10000 / 6000 = 65536 ∧
    (set_speed_command SKI780.fresh 157288 blankFrame).map ModbusCommand.value = some 0 ∧
    429497 * 10 ≥ SKI780.fresh._maxFrequency * 6 ∧
    (set_speed_command SKI780.fresh 429497 blankFrame).map ModbusCommand.value = some 0 := by
  decide

/-- C3: evaluation of the frame. For 12000 RPM against `_maxFrequency = 40000`
the frame is `06 10 00 13 88` with both lengths 6 (command 5000). For 160000 RPM
the formula `min 10000 (((d * 10000 / f) * 10000) / 6000)` gives 10000
(`27 10`), the frame carries `04 6A` (1130): the quotient 66666 lost its upper
bits in the conversion to `uint16_t` before the clamp. -/
theorem set_speed_command_frame_eval :
    (set_speed_command SKI780.fresh 12000 blankFrame).map
        (fun d => ([d.tx_length, d.rx_length], [d.msg 1, d.msg 2, d.msg 3, d.msg 4, d.msg 5]))
      = some ([6, 6], [0x06, 0x10, 0x00, 0x13, 0x88]) ∧
    min 10000 (((12000 * 10000 / 40000) * 10000) / 6000) = 5000 ∧
    (set_speed_command SKI780.fresh 160000 blankFrame).map
        (fun d => ([d.tx_length, d.rx_length], [d.msg 1, d.msg 2, d.msg 3, d.msg 4, d.msg 5]))
      = some ([6, 6], [0x06, 0x10, 0x00, 0x04, 0x6A]) ∧
    min 10000 (((160000 * 10000 / 40000) * 10000) / 6000) = 10000 ∧
    (set_speed_command SKI780.fresh 160000 blankFrame).map ModbusCommand.value = some 1130 := by
  decide

/-! ## The direction command -/

/-- C5: for every direction value `direction_command` builds a write frame to
register 0x2000 with `tx_length = rx_length = 6` and `msg[1..5] = 06 20 00 00 v`,
`v` being 02 for counter-clockwise, 01 for clockwise and 06 for stopped and for
any other value. -/
theorem direction_command_frame (mode : SpindleState) (data : ModbusCommand) :
    (direction_command mode data).tx_length = 6 ∧
    (direction_command mode data).rx_length = 6 ∧
    (direction_command mode data).msg 1 = 0x06 ∧
    (direction_command mode data).msg 2 = 0x20 ∧
    (direction_command mode data).msg 3 = 0x00 ∧
    (direction_command mode data).msg 4 = 0x00 ∧
    (direction_command mode data).msg 5 = directionValue mode ∧
    directionValue SpindleState.Ccw = 0x02 ∧ directionValue SpindleState.Cw = 0x01 ∧
    ∀ m, m ≠ SpindleState.Ccw → m ≠ SpindleState.Cw → directionValue m = 0x06 := by
  refine ⟨rfl, rfl, rfl, rfl, rfl, rfl, ?_, rfl, rfl, ?_⟩
  · cases mode <;> rfl
  · intro m h1 h2
    cases m <;> first | rfl | contradiction

/-! ## Round trip RPM → command → frequency → RPM -/

theorem speed_value_in_range (maxFrequency dev_speed : Nat)
    (h16 : maxFrequency < 65536) (hr : dev_speed ≤ maxFrequency * 600 / 1000) :
    speed_value maxFrequency dev_speed = dev_speed * 10000 / maxFrequency * 10000 / 6000 ∧
      dev_speed * 10000 / maxFrequency ≤ 6000 := by
  have h1 : dev_speed * 10000 ≤ maxFrequency * 6000 := by omega
  have hx : dev_speed * 10000 / maxFrequency ≤ 6000 := Nat.div_le_of_le_mul h1
  have hm : dev_speed * 10000 % 4294967296 = dev_speed * 10000 :=
    Nat.mod_eq_of_lt (by omega)
  refine ⟨?_, hx⟩
  simp only [speed_value, hm]
  generalize dev_speed * 10000 / maxFrequency = x at hx ⊢
  have hm2 : x * 10000 % 4294967296 = x * 10000 := Nat.mod_eq_of_lt (by omega)
  have hm3 : x * 10000 / 6000 % 65536 = x * 10000 / 6000 := Nat.mod_eq_of_lt (by omega)
  rw [hm2, hm3]
  split_ifs <;> omega

theorem parse_current_speed_wellFormed (v : Nat) (hv : v < 65536) (vfd : SKI780) :
    parse_current_speed (wellFormed v) vfd = (true, { vfd with _sync_dev_speed := v * 600 / 1000 }) := by
  have hw := word45_wellFormed v hv
  have h1 : v % 4294967296 = v := Nat.mod_eq_of_lt (by omega)
  have h2 : v * 600 % 4294967296 = v * 600 := Nat.mod_eq_of_lt (by omega)
  rw [parse_current_speed_eq]
  simp only [hw, h1, h2]
  simp [wellFormed, mkResponse]

theorem round_trip_arith (mf r : Nat) (hmf : 0 < mf) :
    r * 10000 / mf * 10000 / 6000 * mf / 10000 * 600 / 1000 ≤ r ∧
      50000 * (r - r * 10000 / mf * 10000 / 6000 * mf / 10000 * 600 / 1000) ≤ 7 * mf + 69992 := by
  have hx1 : mf * (r * 10000 / mf) ≤ r * 10000 := Nat.mul_div_le _ _
  have hx2 : r * 10000 < mf * (r * 10000 / mf + 1) := Nat.lt_mul_div_succ _ hmf
  generalize r * 10000 / mf = x at hx1 hx2 ⊢
  have hc1 : 3 * (x * 10000 / 6000) ≤ 5 * x := by omega
  have hc2 : 5 * x ≤ 3 * (x * 10000 / 6000) + 2 := by omega
  generalize x * 10000 / 6000 = c at hc1 hc2 ⊢
  have hq1 : 3 * (c * mf) ≤ 5 * (mf * x) := by
    have := Nat.mul_le_mul_left mf hc1
    calc 3 * (c * mf) = mf * (3 * c) := by ring
      _ ≤ mf * (5 * x) := this
      _ = 5 * (mf * x) := by ring
  have hq2 : 5 * (mf * x) ≤ 3 * (c * mf) + 2 * mf := by
    have := Nat.mul_le_mul_left mf hc2
    calc 5 * (mf * x) = mf * (5 * x) := by ring
      _ ≤ mf * (3 * c + 2) := this
      _ = 3 * (c * mf) + 2 * mf := by ring
  have hx2' : r * 10000 < mf * x + mf := by
    calc r * 10000 < mf * (x + 1) := hx2
      _ = mf * x + mf := by ring
  generalize mf * x = P at hx1 hx2' hq1 hq2
  generalize c * mf = Q at hq1 hq2 ⊢
  omega

/-- C4 (as amended): for every non-zero 16-bit `_maxFrequency` and every RPM `r`
up to `_maxFrequency * 600 / 1000`, the command `c` encoded for `r`, turned into
the frequency `f = c * _maxFrequency / 10000` and read back by the
`get_current_speed` parser from a well-formed response carrying `f`, gives an RPM
`r'` with `r' ≤ r` and `r - r' ≤ 10`; precisely
`50000 * (r - r') ≤ 7 * _maxFrequency + 69992`. -/
theorem speed_round_trip_within_ten (self vfd : SKI780) (r : Nat) (data : ModbusCommand)
    (hne : self._maxFrequency ≠ 0) (h16 : self._maxFrequency < 65536)
    (hr : r ≤ self._maxFrequency * 600 / 1000) :
    ∃ data' vfd', set_speed_command self r data = some data' ∧
      parse_current_speed (wellFormed (data'.value * self._maxFrequency / 10000)) vfd = (true, vfd') ∧
      vfd'._sync_dev_speed ≤ r ∧ r - vfd'._sync_dev_speed ≤ 10 ∧
      50000 * (r - vfd'._sync_dev_speed) ≤ 7 * self._maxFrequency + 69992 := by
  obtain ⟨data', hsome, -, -, -, -, -, hval⟩ := set_speed_command_eq self r data hne
  obtain ⟨hexact, -⟩ := speed_value_in_range self._maxFrequency r h16 hr
  have hc : data'.value ≤ 10000 := hval ▸ speed_value_le _ _
  have hf : data'.value * self._maxFrequency / 10000 < 65536 := by
    have : data'.value * self._maxFrequency ≤ 10000 * self._maxFrequency :=
      Nat.mul_le_mul_right _ hc
    have : data'.value * self._maxFrequency / 10000 ≤ self._maxFrequency :=
      Nat.div_le_of_le_mul this
    omega
  have harith := round_trip_arith self._maxFrequency r (Nat.pos_of_ne_zero hne)
  refine ⟨data', _, hsome, parse_current_speed_wellFormed _ hf vfd, ?_⟩
  simp only [hval, hexact]
  omega

/-- Instance of the amended C4 at the default `_maxFrequency = 40000`, 12345 RPM. -/
theorem speed_round_trip_within_ten_witness :
    SKI780.fresh._maxFrequency ≠ 0 ∧ SKI780.fresh._maxFrequency < 65536 ∧
    12345 ≤ SKI780.fresh._maxFrequency * 600 / 1000 ∧
    ∃ data' vfd', set_speed_command SKI780.fresh 12345 blankFrame = some data' ∧
      parse_current_speed (wellFormed (data'.value * SKI780.fresh._maxFrequency / 10000)) SKI780.fresh
        = (true, vfd') ∧
      vfd'._sync_dev_speed ≤ 12345 ∧ 12345 - vfd'._sync_dev_speed ≤ 10 ∧
      50000 * (12345 - vfd'._sync_dev_speed) ≤ 7 * SKI780.fresh._maxFrequency + 69992 :=
  ⟨by decide, by decide, by decide,
    speed_round_trip_within_ten SKI780.fresh SKI780.fresh 12345 blankFrame
      (by decide) (by decide) (by decide)⟩

/-- C4 as stated fails: with `_maxFrequency = 40000`, 3 RPM is encoded as command 0
and read back as 0 RPM; with `_maxFrequency = 61436`, 3551 RPM (below the maximum
36861) is encoded as command 961, which denotes 5903 (1/100 Hz) and is read back
as 3541 RPM. The distances are 3 and 10, both above 1. -/
theorem speed_round_trip_exceeds_one :
    3 ≤ SKI780.fresh._maxFrequency * 600 / 1000 ∧
    (set_speed_command SKI780.fresh 3 blankFrame).map
        (fun d => (d.value, d.value * 40000 / 10000,
          (parse_current_speed (wellFormed (d.value * 40000 / 10000)) SKI780.fresh).1,
          (parse_current_speed (wellFormed (d.value * 40000 / 10000)) SKI780.fresh).2._sync_dev_speed))
      = some (0, 0, true, 0) ∧
    3551 ≤ 61436 * 600 / 1000 ∧
    (set_speed_command { SKI780.fresh with _maxFrequency := 61436 } 3551 blankFrame).map
        (fun d => (d.value, d.value * 61436 / 10000,
          (parse_current_speed (wellFormed (d.value * 61436 / 10000)) SKI780.fresh).1,
          (parse_current_speed (wellFormed (d.value * 61436 / 10000)) SKI780.fresh).2._sync_dev_speed))
      = some (961, 5903, true, 3541) := by
  decide

/-! ## Response validation -/

theorem word45_mod (response : Response) :
    word45 response % 65536 = (response 4).val * 256 + (response 5).val := by
  rw [Nat.mod_eq_of_lt (word45_lt response), word45_eq]

theorem poll_parsers_reject_function_code (response : Response) (vfd : SKI780)
    (hcode : response 1 ≠ 0x03) :
    parse_current_speed response vfd = (false, vfd) ∧ parse_current_direction response vfd = (false, vfd) ∧
      parse_status_ok response vfd = (false, vfd) := by
  simp [parse_current_speed_eq, parse_current_direction_eq, parse_status_ok_eq, hcode]

theorem poll_parsers_reject_length (response : Response) (vfd : SKI780)
    (hlen : ¬ (response 2 = 0 ∧ response 3 = 2)) :
    parse_current_speed response vfd = (false, vfd) ∧ parse_current_direction response vfd = (false, vfd) ∧
      parse_status_ok response vfd = (false, vfd) := by
  have hor : response 2 ≠ 0 ∨ response 3 ≠ 2 := by
    by_cases h2 : response 2 = 0
    · exact Or.inr (fun h3 => hlen ⟨h2, h3⟩)
    · exact Or.inl h2
  simp only [parse_current_speed_eq, parse_current_direction_eq, parse_status_ok_eq]
  simp only [if_pos hor]
  refine ⟨?_, ?_, ?_⟩ <;> split_ifs <;> rfl

/-- C6: for a response with function code 0x03 and declared length `(0, 2)`, the
parser returned by `get_status_ok` returns true exactly when the 16-bit fault
code `response[4] * 256 + response[5]` is 0, and false for every other code. -/
theorem status_ok_iff_no_fault (data : ModbusCommand) (response : Response) (vfd : SKI780)
    (hcode : response 1 = 0x03) (hlen : response 2 = 0 ∧ response 3 = 2) :
    (((get_status_ok data).1 response vfd).1 = true ↔
        (response 4).val * 256 + (response 5).val = 0) ∧
      ((response 4).val * 256 + (response 5).val ≠ 0 →
        ((get_status_ok data).1 response vfd).1 = false) := by
  have hw := word45_mod response
  by_cases hz : (response 4).val * 256 + (response 5).val = 0
  · simp [get_status_ok, parse_status_ok_eq, hcode, hlen.1, hlen.2, hw, hz]
  · simp [get_status_ok, parse_status_ok_eq, hcode, hlen.1, hlen.2, hw, hz]

/-- Instance of C6 at fault code 7. -/
theorem status_ok_iff_no_fault_witness :
    wellFormed 7 1 = 0x03 ∧ (wellFormed 7 2 = 0 ∧ wellFormed 7 3 = 2) ∧
    (((get_status_ok blankFrame).1 (wellFormed 7) SKI780.fresh).1 = true ↔
        (wellFormed 7 4).val * 256 + (wellFormed 7 5).val = 0) ∧
      ((wellFormed 7 4).val * 256 + (wellFormed 7 5).val ≠ 0 →
        ((get_status_ok blankFrame).1 (wellFormed 7) SKI780.fresh).1 = false) :=
  ⟨by decide, by decide,
    status_ok_iff_no_fault blankFrame (wellFormed 7) SKI780.fresh (by decide) (by decide)⟩

/-- C7: evaluation of the two initialization parsers on a response whose
function code is 0x06, not the 0x03 of the read request: both return true, and
store 0x1234 as `_minFrequency`, respectively `_maxFrequency`. -/
theorem init_parsers_accept_function_code_6 :
    mkResponse 1 0x06 0x00 0x02 0x12 0x34 1 ≠ 0x03 ∧
    (initialization_sequence (-1) blankFrame).1.map
        (fun p => ((p (mkResponse 1 0x06 0x00 0x02 0x12 0x34) SKI780.fresh).1,
          (p (mkResponse 1 0x06 0x00 0x02 0x12 0x34) SKI780.fresh).2._minFrequency))
      = some (true, 0x1234) ∧
    (initialization_sequence (-2) blankFrame).1.map
        (fun p => ((p (mkResponse 1 0x06 0x00 0x02 0x12 0x34) SKI780.fresh).1,
          (p (mkResponse 1 0x06 0x00 0x02 0x12 0x34) SKI780.fresh).2._maxFrequency))
      = some (true, 0x1234) := by
  decide

/-- C8: evaluation of the two initialization parsers on a response whose
declared length is `(0, 4)`, not `(0, 2)`: both return true, and store 0x1234 as
`_minFrequency`, respectively `_maxFrequency`. -/
theorem init_parsers_accept_length_4 :
    ¬ (mkResponse 1 0x03 0x00 0x04 0x12 0x34 2 = 0 ∧ mkResponse 1 0x03 0x00 0x04 0x12 0x34 3 = 2) ∧
    (initialization_sequence (-1) blankFrame).1.map
        (fun p => ((p (mkResponse 1 0x03 0x00 0x04 0x12 0x34) SKI780.fresh).1,
          (p (mkResponse 1 0x03 0x00 0x04 0x12 0x34) SKI780.fresh).2._minFrequency))
      = some (true, 0x1234) ∧
    (initialization_sequence (-2) blankFrame).1.map
        (fun p => ((p (mkResponse 1 0x03 0x00 0x04 0x12 0x34) SKI780.fresh).1,
          (p (mkResponse 1 0x03 0x00 0x04 0x12 0x34) SKI780.fresh).2._maxFrequency))
      = some (true, 0x1234) := by
  decide

/-! ## Failure leaves the state alone -/

/-- C9: for every parser the backend returns, every state and every response,
a parser that returns false leaves the backend state exactly as it was. -/
theorem parser_failure_keeps_state (p : ParserId) (data : ModbusCommand)
    (parser : ResponseParser) (response : Response) (vfd : SKI780)
    (hp : p.parser data = some parser) (hfail : (parser response vfd).1 = false) :
    (parser response vfd).2 = vfd := by
  cases p <;>
    simp only [ParserId.parser, initialization_sequence, get_current_speed,
      get_current_direction, get_status_ok, Option.some.injEq, if_true, if_false,
      show ((-2 : Int) = -1) = False from by decide] at hp <;>
    subst hp
  · simp [parse_init_min_eq] at hfail
  · simp [parse_init_max_eq] at hfail
  · simp only [parse_current_speed_eq] at hfail ⊢
    split_ifs at hfail ⊢ <;> rfl
  · simp only [parse_current_direction_eq]
    split_ifs <;> rfl
  · simp only [parse_status_ok_eq]
    split_ifs <;> rfl

/-- Instance of C9: the status parser on a response reporting fault 5. -/
theorem parser_failure_keeps_state_witness :
    ParserId.statusOk.parser blankFrame = some parse_status_ok ∧
    (parse_status_ok (wellFormed 5) SKI780.fresh).1 = false ∧
    (parse_status_ok (wellFormed 5) SKI780.fresh).2 = SKI780.fresh :=
  ⟨rfl, by decide,
    parser_failure_keeps_state ParserId.statusOk blankFrame parse_status_ok (wellFormed 5)
      SKI780.fresh rfl (by decide)⟩

/-! ## Initialization -/

/-- C10: from a backend with an empty speed table, the step -1 parser applied to
a response carrying `m` and then the step -2 parser applied to a response
carrying `M` both return true, store `_minFrequency = m` and `_maxFrequency = M`,
and hand the RPM range `(m * 600 / 1000, M * 600 / 1000)` to the speed table. -/
theorem initialization_derives_rpm_range (data1 data2 : ModbusCommand)
    (r1 r2 : Response) (vfd : SKI780) (m M : Nat)
    (hm : (r1 4).val * 256 + (r1 5).val = m) (hM : (r2 4).val * 256 + (r2 5).val = M)
    (hempty : vfd._speeds.size = 0) :
    ∃ p1 p2 s1 s2, (initialization_sequence (-1) data1).1 = some p1 ∧
      (initialization_sequence (-2) data2).1 = some p2 ∧
      p1 r1 vfd = (true, s1) ∧ p2 r2 s1 = (true, s2) ∧
      s2._minFrequency = m ∧ s2._maxFrequency = M ∧
      s2._speeds.shelf = some (m * 600 / 1000, M * 600 / 1000) ∧
      s2._speeds.max_dev_speed = some (M * 600 / 1000) := by
  have h1 := word45_mod r1
  have h2 := word45_mod r2
  rw [hm] at h1
  rw [hM] at h2
  simp only [word45] at h1 h2
  refine ⟨parse_init_min, parse_init_max, _, _, rfl, rfl, rfl, rfl, ?_⟩
  simp [parse_init_max_eq, parse_init_min_eq, hempty, SKI780.shelfSpeeds, SKI780.setupSpeeds, h1, h2]

/-- Instance of C10: readings 0 and 40000 on a fresh backend give the range
0 to 24000 RPM. -/
theorem initialization_derives_rpm_range_witness :
    (wellFormed 0 4).val * 256 + (wellFormed 0 5).val = 0 ∧
    (wellFormed 40000 4).val * 256 + (wellFormed 40000 5).val = 40000 ∧
    SKI780.fresh._speeds.size = 0 ∧
    ∃ p1 p2 s1 s2, (initialization_sequence (-1) blankFrame).1 = some p1 ∧
      (initialization_sequence (-2) blankFrame).1 = some p2 ∧
      p1 (wellFormed 0) SKI780.fresh = (true, s1) ∧ p2 (wellFormed 40000) s1 = (true, s2) ∧
      s2._minFrequency = 0 ∧ s2._maxFrequency = 40000 ∧
      s2._speeds.shelf = some (0, 24000) ∧
      s2._speeds.max_dev_speed = some 24000 :=
  ⟨by decide, by decide, by decide,
    initialization_derives_rpm_range blankFrame blankFrame (wellFormed 0) (wellFormed 40000)
      SKI780.fresh 0 40000 (by decide) (by decide) (by decide)⟩

/-! ## The initialization sequence as a state machine -/

theorem initialization_sequence_other (index : Int) (data : ModbusCommand)
    (h1 : index ≠ -1) (h2 : index ≠ -2) : initialization_sequence index data = (none, data) := by
  simp [initialization_sequence, h1, h2]

/-- C11: `initialization_sequence` yields a parser exactly for the indices -1 and
-2, with the read frame of register 0xF00E, respectively 0xF00A; for every other
index it yields no parser and returns the frame as it was, so a driver counting
down from -1 obtains exactly two steps. -/
theorem initialization_sequence_steps (index : Int) (data : ModbusCommand) :
    ((initialization_sequence index data).1.isSome = true ↔ index = -1 ∨ index = -2) ∧
    ((initialization_sequence (-1) data).2.tx_length = 6 ∧
      (initialization_sequence (-1) data).2.rx_length = 6 ∧
      (initialization_sequence (-1) data).2.payload = [0x03, 0xF0, 0x0E, 0x00, 0x01]) ∧
    ((initialization_sequence (-2) data).2.tx_length = 6 ∧
      (initialization_sequence (-2) data).2.rx_length = 6 ∧
      (initialization_sequence (-2) data).2.payload = [0x03, 0xF0, 0x0A, 0x00, 0x01]) ∧
    (index ≠ -1 → index ≠ -2 → initialization_sequence index data = (none, data)) ∧
    (∀ fuel, initStepCount (fuel + 3) (-1) data = 2) := by
  refine ⟨?_, ⟨rfl, rfl, rfl⟩, ⟨rfl, rfl, rfl⟩, initialization_sequence_other index data, ?_⟩
  · by_cases h1 : index = -1
    · simp [initialization_sequence, h1]
    · by_cases h2 : index = -2
      · simp [initialization_sequence, h2]
      · simp [initialization_sequence, h1, h2]
  · intro fuel
    simp [initStepCount, initialization_sequence]

/-! ## Reading the speed back -/

theorem parse_current_speed_ok (response : Response) (vfd : SKI780)
    (hcode : response 1 = 0x03) (hlen : response 2 = 0 ∧ response 3 = 2) :
    parse_current_speed response vfd =
      (true, { vfd with _sync_dev_speed := word45 response * 600 / 1000 }) := by
  have hlt := word45_lt response
  have h1 : word45 response % 4294967296 = word45 response := Nat.mod_eq_of_lt (by omega)
  have h2 : word45 response * 600 % 4294967296 = word45 response * 600 :=
    Nat.mod_eq_of_lt (by omega)
  rw [parse_current_speed_eq]
  simp only [h1, h2]
  simp [hcode, hlen.1, hlen.2]

theorem parse_init_max_fields (response : Response) (vfd : SKI780) :
    (parse_init_max response vfd).1 = true ∧
    (parse_init_max response vfd).2._minFrequency = vfd._minFrequency ∧
    (parse_init_max response vfd).2._maxFrequency = word45 response ∧
    (parse_init_max response vfd).2._speeds.max_dev_speed = some (word45 response * 600 / 1000) ∧
    (vfd._speeds.size = 0 → (parse_init_max response vfd).2._speeds.shelf =
      some (vfd._minFrequency * 600 / 1000, word45 response * 600 / 1000)) := by
  have hw : word45 response % 65536 = word45 response := Nat.mod_eq_of_lt (word45_lt response)
  refine ⟨rfl, ?_, ?_, ?_, ?_⟩
  · simp only [parse_init_max_eq, SKI780.shelfSpeeds, SKI780.setupSpeeds]
    split_ifs <;> rfl
  · simp only [parse_init_max_eq, SKI780.shelfSpeeds, SKI780.setupSpeeds, hw]
    split_ifs <;> rfl
  · simp only [parse_init_max_eq, SKI780.shelfSpeeds, SKI780.setupSpeeds, hw]
  · intro hempty
    simp [parse_init_max_eq, SKI780.shelfSpeeds, SKI780.setupSpeeds, hw, hempty]

/-- C12: for every well-formed speed response (function code 0x03, length
`(0, 2)`) carrying the reading `F = response[4] * 256 + response[5]`, the parser
of `get_current_speed` returns true, sets the current speed to `F * 60 / 100`
and changes no other field; `F * 600` stays below `2 ^ 32`. -/
theorem parse_current_speed_exact (data : ModbusCommand) (response : Response) (vfd : SKI780)
    (F : Nat) (hF : (response 4).val * 256 + (response 5).val = F)
    (hcode : response 1 = 0x03) (hlen : response 2 = 0 ∧ response 3 = 2) :
    (get_current_speed data).1 response vfd = (true, { vfd with _sync_dev_speed := F * 60 / 100 }) ∧
      F * 600 < 4294967296 ∧ F * 600 / 1000 = F * 60 / 100 := by
  have hlt := word45_lt response
  have hw := word45_eq response
  rw [hF] at hw
  have hdiv : F * 600 / 1000 = F * 60 / 100 := by omega
  refine ⟨?_, by omega, hdiv⟩
  show parse_current_speed response vfd = _
  rw [parse_current_speed_ok response vfd hcode hlen, hw, hdiv]

/-- Instance of C12: the reading 2397 of the source's comment (`09 5D`) gives
1438 RPM. -/
theorem parse_current_speed_exact_witness :
    (mkResponse 1 0x03 0x00 0x02 0x09 0x5D 4).val * 256 +
        (mkResponse 1 0x03 0x00 0x02 0x09 0x5D 5).val = 2397 ∧
    mkResponse 1 0x03 0x00 0x02 0x09 0x5D 1 = 0x03 ∧
    (mkResponse 1 0x03 0x00 0x02 0x09 0x5D 2 = 0 ∧ mkResponse 1 0x03 0x00 0x02 0x09 0x5D 3 = 2) ∧
    ((get_current_speed blankFrame).1 (mkResponse 1 0x03 0x00 0x02 0x09 0x5D) SKI780.fresh
        = (true, { SKI780.fresh with _sync_dev_speed := 1438 }) ∧
      2397 * 600 < 4294967296 ∧ 2397 * 600 / 1000 = 2397 * 60 / 100) :=
  ⟨by decide, by decide, by decide,
    parse_current_speed_exact blankFrame (mkResponse 1 0x03 0x00 0x02 0x09 0x5D) SKI780.fresh
      2397 (by decide) (by decide) (by decide)⟩

/-- C13: for every 16-bit reading `F`, the RPM that the parser of
`get_current_speed` stores for a well-formed response carrying `F` is the maximum
RPM that the step -2 parser computes from a response carrying the same reading
and passes to `setupSpeeds` (and, on an empty table, to `shelfSpeeds`); neither
the `uint32_t` product nor the `int` product `F * 600` leaves its type. -/
theorem speed_reading_matches_discovered_maximum (r r' : Response) (vfd vfd' : SKI780)
    (F : Nat) (hcode : r 1 = 0x03) (hlen : r 2 = 0 ∧ r 3 = 2)
    (hr : (r 4).val * 256 + (r 5).val = F) (hr' : (r' 4).val * 256 + (r' 5).val = F) :
    (parse_current_speed r vfd).1 = true ∧
    (parse_init_max r' vfd').1 = true ∧
    (parse_init_max r' vfd').2._speeds.max_dev_speed =
      some (parse_current_speed r vfd).2._sync_dev_speed ∧
    (vfd'._speeds.size = 0 →
      (parse_init_max r' vfd').2._speeds.shelf.map Prod.snd =
        some (parse_current_speed r vfd).2._sync_dev_speed) ∧
    (parse_current_speed r vfd).2._sync_dev_speed = F * 600 / 1000 ∧
    F * 600 < 4294967296 ∧ F * 600 < 2147483648 := by
  have hsp := parse_current_speed_ok r vfd hcode hlen
  have hw := word45_eq r
  have hw' := word45_eq r'
  have hlt := word45_lt r
  rw [hr] at hw
  rw [hr'] at hw'
  obtain ⟨hok, -, -, hmax, hshelf⟩ := parse_init_max_fields r' vfd'
  rw [hw'] at hmax hshelf
  rw [hw] at hsp hlt
  refine ⟨by rw [hsp], hok, by rw [hsp, hmax], ?_, by rw [hsp], by omega, by omega⟩
  intro hempty
  rw [hsp, hshelf hempty]
  rfl

/-- Instance of C13 at the default maximum frequency 40000. -/
theorem speed_reading_matches_discovered_maximum_witness :
    wellFormed 40000 1 = 0x03 ∧ (wellFormed 40000 2 = 0 ∧ wellFormed 40000 3 = 2) ∧
    (wellFormed 40000 4).val * 256 + (wellFormed 40000 5).val = 40000 ∧
    (parse_current_speed (wellFormed 40000) SKI780.fresh).1 = true ∧
    (parse_init_max (wellFormed 40000) SKI780.fresh).1 = true ∧
    (parse_init_max (wellFormed 40000) SKI780.fresh).2._speeds.max_dev_speed =
      some (parse_current_speed (wellFormed 40000) SKI780.fresh).2._sync_dev_speed ∧
    (SKI780.fresh._speeds.size = 0 →
      (parse_init_max (wellFormed 40000) SKI780.fresh).2._speeds.shelf.map Prod.snd =
        some (parse_current_speed (wellFormed 40000) SKI780.fresh).2._sync_dev_speed) ∧
    (parse_current_speed (wellFormed 40000) SKI780.fresh).2._sync_dev_speed = 40000 * 600 / 1000 ∧
    40000 * 600 < 4294967296 ∧ 40000 * 600 < 2147483648 :=
  ⟨by decide, by decide, by decide,
    speed_reading_matches_discovered_maximum (wellFormed 40000) (wellFormed 40000)
      SKI780.fresh SKI780.fresh 40000 (by decide) (by decide) (by decide) (by decide)⟩

/-! ## Order of the discovered limits -/

/-- C14 (as amended): for every pair of responses, the step -1 parser and then
the step -2 parser both return true and the stored limits are exactly the two
readings, `_minFrequency = m` and `_maxFrequency = M`; so
`_minFrequency ≤ _maxFrequency` holds whenever the readings satisfy `m ≤ M`, and
only then. -/
theorem init_limits_ordered_of_readings (data1 data2 : ModbusCommand)
    (r1 r2 : Response) (vfd : SKI780) :
    ∃ p1 p2, (initialization_sequence (-1) data1).1 = some p1 ∧
      (initialization_sequence (-2) data2).1 = some p2 ∧
      (p1 r1 vfd).1 = true ∧ (p2 r2 (p1 r1 vfd).2).1 = true ∧
      (p2 r2 (p1 r1 vfd).2).2._minFrequency = (r1 4).val * 256 + (r1 5).val ∧
      (p2 r2 (p1 r1 vfd).2).2._maxFrequency = (r2 4).val * 256 + (r2 5).val ∧
      ((r1 4).val * 256 + (r1 5).val ≤ (r2 4).val * 256 + (r2 5).val →
        (p2 r2 (p1 r1 vfd).2).2._minFrequency ≤ (p2 r2 (p1 r1 vfd).2).2._maxFrequency) ∧
      ((p2 r2 (p1 r1 vfd).2).2._minFrequency ≤ (p2 r2 (p1 r1 vfd).2).2._maxFrequency ↔
        (r1 4).val * 256 + (r1 5).val ≤ (r2 4).val * 256 + (r2 5).val) := by
  obtain ⟨hok, hmin, hmax, -, -⟩ := parse_init_max_fields r2 (parse_init_min r1 vfd).2
  have hm : (parse_init_min r1 vfd).2._minFrequency = (r1 4).val * 256 + (r1 5).val :=
    word45_mod r1
  rw [word45_eq] at hmax
  rw [hm] at hmin
  refine ⟨parse_init_min, parse_init_max, rfl, rfl, rfl, hok, hmin, hmax, ?_, ?_⟩
  · intro hle
    rw [hmin, hmax]
    exact hle
  · rw [hmin, hmax]

/-- C14 as stated fails: with readings 100 for the minimum and 50 for the maximum
both initialization parsers return true and the backend holds
`_minFrequency = 100`, `_maxFrequency = 50`. -/
theorem init_limits_unordered_example :
    (initialization_sequence (-1) blankFrame).1 = some parse_init_min ∧
    (initialization_sequence (-2) blankFrame).1 = some parse_init_max ∧
    (parse_init_min (wellFormed 100) SKI780.fresh).1 = true ∧
    (parse_init_max (wellFormed 50) (parse_init_min (wellFormed 100) SKI780.fresh).2).1 = true ∧
    (parse_init_max (wellFormed 50)
      (parse_init_min (wellFormed 100) SKI780.fresh).2).2._minFrequency = 100 ∧
    (parse_init_max (wellFormed 50)
      (parse_init_min (wellFormed 100) SKI780.fresh).2).2._maxFrequency = 50 ∧
    ¬ ((parse_init_max (wellFormed 50)
        (parse_init_min (wellFormed 100) SKI780.fresh).2).2._minFrequency ≤
      (parse_init_max (wellFormed 50)
        (parse_init_min (wellFormed 100) SKI780.fresh).2).2._maxFrequency) :=
  ⟨rfl, rfl, by decide⟩

/-! ## What the operations after initialization leave alone -/

theorem poll_parsers_keep_limits (response : Response) (vfd : SKI780) :
    (parse_current_speed response vfd).2.limits = vfd.limits ∧
    (parse_current_direction response vfd).2 = vfd ∧
    (parse_status_ok response vfd).2 = vfd := by
  refine ⟨?_, ?_, ?_⟩
  · simp only [parse_current_speed_eq]
    split_ifs <;> rfl
  · simp only [parse_current_direction_eq]
    split_ifs <;> rfl
  · simp only [parse_status_ok_eq]
    split_ifs <;> rfl

/-- C15: every builder other than `initialization_sequence` hands the backend
back with `_minFrequency`, `_maxFrequency`, the speed table and the slop as they
were (it changes no field at all), and so does the parser it returns, for every
response, whether it returns true or false. The call is defined whenever
`_maxFrequency` is non-zero. -/
theorem limits_fixed_outside_initialization (b : Builder) (self : SKI780)
    (data : ModbusCommand) (hb : b.isInit = false) :
    (self._maxFrequency ≠ 0 → (b.call self data).isSome = true) ∧
    ∀ self' data' p, b.call self data = some (self', data', p) →
      self' = self ∧ self'.limits = self.limits ∧
      ∀ parser response, p = some parser →
        (parser response self').2.limits = self.limits ∧
        (parser response self').2._minFrequency = self._minFrequency ∧
        (parser response self').2._maxFrequency = self._maxFrequency := by
  have hfield : ∀ s : SKI780, s.limits = self.limits →
      s._minFrequency = self._minFrequency ∧ s._maxFrequency = self._maxFrequency := by
    intro s hs
    simp only [SKI780.limits, Prod.mk.injEq] at hs
    exact ⟨hs.1, hs.2.1⟩
  cases b with
  | direction mode =>
    refine ⟨fun _ => rfl, ?_⟩
    intro self' data' p h
    simp only [Builder.call, Option.some.injEq, Prod.mk.injEq] at h
    obtain ⟨rfl, -, rfl⟩ := h
    exact ⟨rfl, rfl, fun parser response hp => by simp at hp⟩
  | setSpeed dev_speed =>
    refine ⟨?_, ?_⟩
    · intro hne
      simp [Builder.call, set_speed_command, hne]
    · intro self' data' p h
      simp only [Builder.call] at h
      split at h
      · simp only [Option.some.injEq, Prod.mk.injEq] at h
        obtain ⟨rfl, -, rfl⟩ := h
        exact ⟨rfl, rfl, fun parser response hp => by simp at hp⟩
      · simp at h
  | currentSpeed =>
    refine ⟨fun _ => rfl, ?_⟩
    intro self' data' p h
    simp only [Builder.call, Option.some.injEq, Prod.mk.injEq] at h
    obtain ⟨rfl, -, rfl⟩ := h
    refine ⟨rfl, rfl, ?_⟩
    intro parser response hp
    simp only [get_current_speed, Option.some.injEq] at hp
    subst hp
    have hl := (poll_parsers_keep_limits response self).1
    exact ⟨hl, hfield _ hl⟩
  | currentDirection =>
    refine ⟨fun _ => rfl, ?_⟩
    intro self' data' p h
    simp only [Builder.call, Option.some.injEq, Prod.mk.injEq] at h
    obtain ⟨rfl, -, rfl⟩ := h
    refine ⟨rfl, rfl, ?_⟩
    intro parser response hp
    simp only [get_current_direction, Option.some.injEq] at hp
    subst hp
    have hl := (poll_parsers_keep_limits response self).2.1
    rw [hl]
    exact ⟨rfl, rfl, rfl⟩
  | statusOk =>
    refine ⟨fun _ => rfl, ?_⟩
    intro self' data' p h
    simp only [Builder.call, Option.some.injEq, Prod.mk.injEq] at h
    obtain ⟨rfl, -, rfl⟩ := h
    refine ⟨rfl, rfl, ?_⟩
    intro parser response hp
    simp only [get_status_ok, Option.some.injEq] at hp
    subst hp
    have hl := (poll_parsers_keep_limits response self).2.2
    rw [hl]
    exact ⟨rfl, rfl, rfl⟩
  | init index => simp [Builder.isInit] at hb

/-- Instance of C15: `get_current_speed` on a fresh backend. -/
theorem limits_fixed_outside_initialization_witness :
    Builder.currentSpeed.isInit = false ∧
    (SKI780.fresh._maxFrequency ≠ 0 →
      (Builder.currentSpeed.call SKI780.fresh blankFrame).isSome = true) ∧
    ∀ self' data' p, Builder.currentSpeed.call SKI780.fresh blankFrame = some (self', data', p) →
      self' = SKI780.fresh ∧ self'.limits = SKI780.fresh.limits ∧
      ∀ parser response, p = some parser →
        (parser response self').2.limits = SKI780.fresh.limits ∧
        (parser response self').2._minFrequency = SKI780.fresh._minFrequency ∧
        (parser response self').2._maxFrequency = SKI780.fresh._maxFrequency :=
  ⟨rfl, limits_fixed_outside_initialization Builder.currentSpeed SKI780.fresh blankFrame rfl⟩

/-! ## What a builder writes into the frame -/

/-- C17 (as amended): for a well-formed response (function code 0x03, length
`(0, 2)`) the parser of `get_current_direction` returns true and leaves the
backend state exactly as it was, whatever status the response reports: the status
is decoded for logging only. -/
theorem direction_poll_keeps_state (data : ModbusCommand) (response : Response) (vfd : SKI780)
    (hcode : response 1 = 0x03) (hlen : response 2 = 0 ∧ response 3 = 2) :
    (get_current_direction data).1 response vfd = (true, vfd) := by
  simp [get_current_direction, parse_current_direction_eq, hcode, hlen.1, hlen.2]

/-- Instance of the amended C17: a response reporting status 2 (CCW). -/
theorem direction_poll_keeps_state_witness :
    wellFormed 2 1 = 0x03 ∧ (wellFormed 2 2 = 0 ∧ wellFormed 2 3 = 2) ∧
    (get_current_direction blankFrame).1 (wellFormed 2) SKI780.fresh = (true, SKI780.fresh) :=
  ⟨by decide, by decide,
    direction_poll_keeps_state blankFrame (wellFormed 2) SKI780.fresh (by decide) (by decide)⟩

/-- C17 as stated fails: the responses reporting status 1 (CW) and status 2 (CCW),
applied to the same prior state, both return true and leave the same state. -/
theorem direction_poll_same_state :
    (wellFormed 1 4).val * 256 + (wellFormed 1 5).val = 1 ∧
    (wellFormed 2 4).val * 256 + (wellFormed 2 5).val = 2 ∧
    (get_current_direction blankFrame).1 (wellFormed 1) SKI780.fresh = (true, SKI780.fresh) ∧
    (get_current_direction blankFrame).1 (wellFormed 2) SKI780.fresh = (true, SKI780.fresh) ∧
    ((get_current_direction blankFrame).1 (wellFormed 1) SKI780.fresh).2 =
      ((get_current_direction blankFrame).1 (wellFormed 2) SKI780.fresh).2 := by
  decide

/-! ## The divisor of the speed command -/

/-- C18: evaluation on a reachable state. The step -2 parser applied on a fresh
backend to the well-formed response `01 03 00 02 00 00` returns true and stores
`_maxFrequency = 0` (with maximum RPM 0 and slop 1); in that state
`set_speed_command` divides by zero. -/
theorem zero_max_frequency_reachable :
    Reachable (parse_init_max (wellFormed 0) SKI780.fresh).2 ∧
    (initialization_sequence (-2) blankFrame).1.map
        (fun p => ((p (wellFormed 0) SKI780.fresh).1, (p (wellFormed 0) SKI780.fresh).2))
      = some (true, { _minFrequency := 0, _maxFrequency := 0, _sync_dev_speed := 0, _slop := 1,
                      _speeds := ⟨some (0, 0), some 0⟩ }) ∧
    (set_speed_command (parse_init_max (wellFormed 0) SKI780.fresh).2 12000 blankFrame).isNone
      = true :=
  ⟨Reachable.parse SKI780.fresh ParserId.initMax blankFrame parse_init_max (wellFormed 0)
      Reachable.fresh rfl, by decide, by decide⟩

/-! ## Exactness of the speed command within the operating range -/

theorem speed_value_mono (mf d1 d2 : Nat) (h16 : mf < 65536) (h12 : d1 ≤ d2)
    (h2 : d2 ≤ mf * 600 / 1000) : speed_value mf d1 ≤ speed_value mf d2 := by
  rw [(speed_value_in_range mf d1 h16 (le_trans h12 h2)).1, (speed_value_in_range mf d2 h16 h2).1]
  exact Nat.div_le_div_right
    (Nat.mul_le_mul_right _ (Nat.div_le_div_right (Nat.mul_le_mul_right _ h12)))

/-- C19: for every non-zero 16-bit `_maxFrequency` and every `dev_speed` up to
`_maxFrequency * 600 / 1000`, neither `uint32_t` product wraps, the quotient fits
`uint16_t` and is at most 10000, so the encoded command is
`dev_speed * 10000 / _maxFrequency * 10000 / 6000` over the natural numbers, is at
most 10000, and does not decrease when `dev_speed` grows within the range. -/
theorem speed_command_exact_in_range (self : SKI780) (dev_speed : Nat) (data : ModbusCommand)
    (hne : self._maxFrequency ≠ 0) (h16 : self._maxFrequency < 65536)
    (hr : dev_speed ≤ self._maxFrequency * 600 / 1000) :
    dev_speed * 10000 < 4294967296 ∧
    dev_speed * 10000 / self._maxFrequency * 10000 < 4294967296 ∧
    dev_speed * 10000 / self._maxFrequency * 10000 / 6000 < 65536 ∧
    dev_speed * 10000 / self._maxFrequency * 10000 / 6000 ≤ 10000 ∧
    ∃ out, set_speed_command self dev_speed data = some out ∧
      out.value = dev_speed * 10000 / self._maxFrequency * 10000 / 6000 ∧
      out.value ≤ 10000 ∧
      ∀ d data' out', d ≤ dev_speed → set_speed_command self d data' = some out' →
        out'.value ≤ out.value := by
  obtain ⟨hexact, hx⟩ := speed_value_in_range self._maxFrequency dev_speed h16 hr
  obtain ⟨out, hsome, -, -, -, -, -, hval⟩ := set_speed_command_eq self dev_speed data hne
  have hle := speed_value_le self._maxFrequency dev_speed
  rw [hexact] at hle
  refine ⟨by omega, by omega, by omega, hle, out, hsome, hval.trans hexact, ?_, ?_⟩
  · rw [hval]
    exact speed_value_le _ _
  · intro d data' out' hd hsome'
    obtain ⟨out'', hsome'', -, -, -, -, -, hval''⟩ := set_speed_command_eq self d data' hne
    rw [hsome''] at hsome'
    cases hsome'
    rw [hval, hval'']
    exact speed_value_mono _ _ _ h16 hd hr

/-- Instance of C19 at the default `_maxFrequency = 40000` and its maximum
24000 RPM. -/
theorem speed_command_exact_in_range_witness :
    SKI780.fresh._maxFrequency ≠ 0 ∧ SKI780.fresh._maxFrequency < 65536 ∧
    24000 ≤ SKI780.fresh._maxFrequency * 600 / 1000 ∧
    24000 * 10000 < 4294967296 ∧
    24000 * 10000 / SKI780.fresh._maxFrequency * 10000 < 4294967296 ∧
    24000 * 10000 / SKI780.fresh._maxFrequency * 10000 / 6000 < 65536 ∧
    24000 * 10000 / SKI780.fresh._maxFrequency * 10000 / 6000 ≤ 10000 ∧
    ∃ out, set_speed_command SKI780.fresh 24000 blankFrame = some out ∧
      out.value = 24000 * 10000 / SKI780.fresh._maxFrequency * 10000 / 6000 ∧
      out.value ≤ 10000 ∧
      ∀ d data' out', d ≤ 24000 → set_speed_command SKI780.fresh d data' = some out' →
        out'.value ≤ out.value :=
  ⟨by decide, by decide, by decide,
    speed_command_exact_in_range SKI780.fresh 24000 blankFrame (by decide) (by decide)
      (by decide)⟩

/-! ## Which octets of a response a parser looks at -/

theorem parser_result_of_octets (p : ParserId) (data : ModbusCommand)
    (parser : ResponseParser) (r1 r2 : Response) (vfd : SKI780)
    (hp : p.parser data = some parser)
    (hagree : ∀ i, 1 ≤ i → i ≤ 5 → r1 i = r2 i) :
    parser r1 vfd = parser r2 vfd := by
  have h1 := hagree 1 (by omega) (by omega)
  have h2 := hagree 2 (by omega) (by omega)
  have h3 := hagree 3 (by omega) (by omega)
  have h4 := hagree 4 (by omega) (by omega)
  have h5 := hagree 5 (by omega) (by omega)
  have hw : word45 r1 = word45 r2 := by simp only [word45, h4, h5]
  cases p <;>
    simp only [ParserId.parser, initialization_sequence, get_current_speed,
      get_current_direction, get_status_ok, Option.some.injEq, if_true, if_false,
      show ((-2 : Int) = -1) = False from by decide] at hp <;>
    subst hp
  · simp only [parse_init_min_eq, hw]
  · simp only [parse_init_max_eq, hw]
  · simp only [parse_current_speed_eq, hw, h1, h2, h3]
  · simp only [parse_current_direction_eq, hw, h1, h2, h3]
  · simp only [parse_status_ok_eq, hw, h1, h2, h3]

theorem parser_request (p : ParserId) (self : SKI780) (data : ModbusCommand)
    (parser : ResponseParser) (hp : p.parser data = some parser) :
    ∃ request, p.builder.call self data = some (self, request, some parser) ∧
      request.rx_length = 6 := by
  cases p <;>
    simp only [ParserId.parser, initialization_sequence, get_current_speed,
      get_current_direction, get_status_ok, Option.some.injEq, if_true, if_false,
      show ((-2 : Int) = -1) = False from by decide] at hp <;>
    subst hp <;>
    exact ⟨_, rfl, rfl⟩

theorem reads_run_eq (p : ParserId) (data : ModbusCommand) (parser : ResponseParser)
    (hp : p.parser data = some parser) (response : Response) (vfd : SKI780) :
    (p.reads vfd).run response = parser response vfd := by
  cases p <;>
    simp only [ParserId.parser, initialization_sequence, get_current_speed,
      get_current_direction, get_status_ok, Option.some.injEq, if_true, if_false,
      show ((-2 : Int) = -1) = False from by decide] at hp <;>
    subst hp <;>
    rfl

theorem reads_trace_bounds (p : ParserId) (vfd : SKI780) (response : Response) :
    ∀ i ∈ (p.reads vfd).trace response, 1 ≤ i ∧ i ≤ 5 := by
  intro i hi
  cases p
  · simp only [ParserId.reads, reads_init_min, Reads.trace] at hi
    simp at hi
    omega
  · simp only [ParserId.reads, reads_init_max, Reads.trace] at hi
    simp at hi
    omega
  · by_cases h1 : response 1 = 3 <;> by_cases h2 : response 2 = 0 <;>
      by_cases h3 : response 3 = 2 <;>
      simp [ParserId.reads, reads_current_speed, Reads.trace, h1, h2, h3] at hi <;> omega
  · by_cases h1 : response 1 = 3 <;> by_cases h2 : response 2 = 0 <;>
      by_cases h3 : response 3 = 2 <;>
      simp [ParserId.reads, reads_current_direction, Reads.trace, h1, h2, h3] at hi <;> omega
  · by_cases h1 : response 1 = 3 <;> by_cases h2 : response 2 = 0 <;>
      by_cases h3 : response 3 = 2 <;>
      by_cases h4 : ((response 4).val <<< 8 ||| (response 5).val) % 65536 = 0 <;>
      simp [ParserId.reads, reads_status_ok, Reads.trace, h1, h2, h3, h4] at hi <;> omega

theorem runOn_eq_run {α : Type} (t : Reads α) (buf : List Byte) (beyond : Nat → Byte)
    (h : ∀ i ∈ t.trace (fromBuffer buf beyond), i < buf.length) :
    t.runOn buf = some (t.run (fromBuffer buf beyond)) := by
  induction t with
  | done a => rfl
  | read i k ih =>
    have hi : i < buf.length := h i (by simp [Reads.trace])
    have hget : buf[i]? = some buf[i] := List.getElem?_eq_getElem hi
    have hfrom : fromBuffer buf beyond i = buf[i] := by
      simp only [fromBuffer, List.getD_eq_getElem _ _ hi]
    simp only [Reads.runOn, Reads.run, hget, hfrom]
    apply ih
    intro j hj
    apply h
    simp only [Reads.trace, hfrom, List.mem_cons]
    exact Or.inr hj

/-- C20: every parser the backend returns evaluates `response[i]` only at
indices 1 to 5, all below the `rx_length = 6` its builder requested; on a
receive buffer of at least 6 octets no read is past the end and the parser
returns a result, which is the one determined by the octets 1 to 5 and the
state. -/
theorem parser_reads_octets_one_to_five (p : ParserId) (self : SKI780) (data : ModbusCommand)
    (parser : ResponseParser) (vfd : SKI780) (response : Response)
    (buf : List Byte) (beyond : Nat → Byte)
    (hp : p.parser data = some parser) (hlen : 6 ≤ buf.length) :
    (p.reads vfd).run response = parser response vfd ∧
    (∀ i ∈ (p.reads vfd).trace response, 1 ≤ i ∧ i ≤ 5) ∧
    (∃ request, p.builder.call self data = some (self, request, some parser) ∧
      request.rx_length = 6 ∧
      ∀ i ∈ (p.reads vfd).trace response, i < request.rx_length) ∧
    (∀ i ∈ (p.reads vfd).trace (fromBuffer buf beyond), i < buf.length) ∧
    (p.reads vfd).runOn buf = some (parser (fromBuffer buf beyond) vfd) ∧
    (∀ r1 r2 : Response, (∀ i, 1 ≤ i → i ≤ 5 → r1 i = r2 i) →
      parser r1 vfd = parser r2 vfd) := by
  have hin : ∀ i ∈ (p.reads vfd).trace (fromBuffer buf beyond), i < buf.length := by
    intro i hi
    have := reads_trace_bounds p vfd (fromBuffer buf beyond) i hi
    omega
  refine ⟨reads_run_eq p data parser hp response vfd, reads_trace_bounds p vfd response,
    ?_, hin, ?_, ?_⟩
  · obtain ⟨request, hcall, hrx⟩ := parser_request p self data parser hp
    refine ⟨request, hcall, hrx, ?_⟩
    intro i hi
    have := reads_trace_bounds p vfd response i hi
    omega
  · rw [runOn_eq_run _ buf beyond hin, reads_run_eq p data parser hp]
  · intro r1 r2 hagree
    exact parser_result_of_octets p data parser r1 r2 vfd hp hagree

/-- Instance of C20: the speed parser on the six-octet buffer
`01 03 00 02 09 5D` of the source's comment. -/
theorem parser_reads_octets_one_to_five_witness :
    ParserId.currentSpeed.parser blankFrame = some parse_current_speed ∧
    6 ≤ [(1 : Byte), 0x03, 0x00, 0x02, 0x09, 0x5D].length ∧
    (ParserId.currentSpeed.reads SKI780.fresh).trace (wellFormed 2397) = [4, 5, 1, 2, 3] ∧
    (ParserId.currentSpeed.reads SKI780.fresh).runOn [1, 0x03, 0x00, 0x02, 0x09, 0x5D]
      = some (true, { SKI780.fresh with _sync_dev_speed := 1438 }) ∧
    (ParserId.currentSpeed.reads SKI780.fresh).runOn [1, 0x03, 0x00, 0x02, 0x09] = none ∧
    ((ParserId.currentSpeed.reads SKI780.fresh).run (wellFormed 2397)
        = parse_current_speed (wellFormed 2397) SKI780.fresh ∧
      (∀ i ∈ (ParserId.currentSpeed.reads SKI780.fresh).trace (wellFormed 2397),
        1 ≤ i ∧ i ≤ 5) ∧
      (∃ request, ParserId.currentSpeed.builder.call SKI780.fresh blankFrame
          = some (SKI780.fresh, request, some parse_current_speed) ∧
        request.rx_length = 6 ∧
        ∀ i ∈ (ParserId.currentSpeed.reads SKI780.fresh).trace (wellFormed 2397),
          i < request.rx_length) ∧
      (∀ i ∈ (ParserId.currentSpeed.reads SKI780.fresh).trace
          (fromBuffer [1, 0x03, 0x00, 0x02, 0x09, 0x5D] (fun _ => 0xEE)),
        i < [(1 : Byte), 0x03, 0x00, 0x02, 0x09, 0x5D].length) ∧
      (ParserId.currentSpeed.reads SKI780.fresh).runOn [1, 0x03, 0x00, 0x02, 0x09, 0x5D]
        = some (parse_current_speed
            (fromBuffer [1, 0x03, 0x00, 0x02, 0x09, 0x5D] (fun _ => 0xEE)) SKI780.fresh) ∧
      (∀ r1 r2 : Response, (∀ i, 1 ≤ i → i ≤ 5 → r1 i = r2 i) →
        parse_current_speed r1 SKI780.fresh = parse_current_speed r2 SKI780.fresh)) :=
  ⟨rfl, by decide, by decide, by decide, by decide,
    parser_reads_octets_one_to_five ParserId.currentSpeed SKI780.fresh blankFrame
      parse_current_speed SKI780.fresh (wellFormed 2397) [1, 0x03, 0x00, 0x02, 0x09, 0x5D]
      (fun _ => 0xEE) rfl (by decide)⟩

end Spindles
